import Mathlib

/-!
Verification of the admission-control core of the Pgi-Canteen backend.

The definitions below are a shallow embedding, in Lean, of the Python source:

* `src/python/src/quota_utils.py` — `evaluate_tenant_quota_for_today`;
* `src/python/src/api_routes.py` — `_card_has_transaction_for_day`,
  `_normalize_timestamp_to_local`, the `/tap` endpoint `tap_transaction`
  (lookup → BEGIN IMMEDIATE → duplicate guard → quota gate → insert →
  commit, with the `sqlite3.IntegrityError` and `sqlite3.OperationalError`
  handlers), and the queue-number assignment in `create_preorder`;
* `src/python/src/sqlite_database.py` — `get_db_connection` timeouts and the
  unique index `idx_transactions_card_day (card_number, transaction_day)`.

SQL rows are lists of structures; SQLite `NULL` becomes `Option`; Python
`row["quota"] or 0` becomes `Option.getD · 0` (both map `None`/`0` to `0`).
Database state is passed explicitly; each `/tap` admission attempt runs inside
one serialized write scope (`BEGIN IMMEDIATE`), so a sequence of attempts is
modelled as a fold of the single-attempt step over the committed ledger.
-/

namespace Canteen

/-- A row of the `tenants` table joined with today's order count, as produced
by the snapshot queries in `quota_utils.py` (lines 12–27) and in
`tap_transaction` (lines 675–690): `tenants.id`, `tenants.quota` (nullable),
`tenants.is_limited`, and `COALESCE(tx.order_count, 0)`. -/
structure TenantRow where
  tid : Nat
  quota : Option Int
  isLimited : Bool
  orderCount : Nat
deriving DecidableEq, Repr

/-- Python `row["quota"] or 0`: a SQL `NULL` quota (and a `0` quota) both
evaluate to `0`. -/
def quotaOrZero (q : Option Int) : Int :=
  q.getD 0

/-- `quota_utils.py` line 37–39: `limited_rows = [row for row in
tenant_map.values() if (row["quota"] or 0) > 0]`. -/
def limitedRows (rows : List TenantRow) : List TenantRow :=
  rows.filter (fun r => 0 < quotaOrZero r.quota)

/-- The SQL `WHERE t.quota IS NOT NULL AND t.quota > 0` filter of the
free-mode scan in `tap_transaction` (api_routes.py line 687) and
`create_preorder` (line 1110). -/
def tenantsWithQuota (rows : List TenantRow) : List TenantRow :=
  rows.filter (fun r => match r.quota with | some q => 0 < q | none => false)

/-- `int((row["quota"] or 0) - row["order_count"])` — remaining capacity of a
tenant row (quota_utils.py line 43). -/
def remainingOf (r : TenantRow) : Int :=
  quotaOrZero r.quota - (r.orderCount : Int)

/-- `max(remaining_map.values())` over the limited rows, `0` when there are
none (quota_utils.py lines 41–49). -/
def maxRemainingAny (rows : List TenantRow) : Int :=
  match (limitedRows rows).map remainingOf with
  | [] => 0
  | x :: xs => xs.foldl max x

/-- The result dictionary of `evaluate_tenant_quota_for_today`
(quota_utils.py lines 68–76). -/
structure QuotaState where
  tenantId : Nat
  targetQuota : Option Int
  targetIsLimited : Bool
  remainingForTarget : Option Int
  maxRemaining : Int
  canOrderForTarget : Bool
  isFreeMode : Bool
deriving DecidableEq, Repr

/-- `evaluate_tenant_quota_for_today` (quota_utils.py lines 5–76) on a
snapshot of tenant rows. Raising `ValueError` (no rows / unknown target)
becomes `Except.error`. `tenant_map.get` on rows with distinct ids (the
table's primary key) is `List.find?`. -/
def evaluate_tenant_quota_for_today (rows : List TenantRow) (targetId : Nat) :
    Except String QuotaState :=
  if rows.isEmpty then .error "Data tenant tidak ditemukan."
  else
    match rows.find? (fun r => r.tid = targetId) with
    | none => .error "Tenant tidak ditemukan."
    | some target =>
      let lim := limitedRows rows
      let maxRem := maxRemainingAny rows
      let targetIsLimited : Bool := 0 < quotaOrZero target.quota
      let targetRemaining : Option Int :=
        if targetIsLimited then some (remainingOf target) else none
      let canOrder : Bool :=
        if lim.isEmpty || !targetIsLimited then true
        else if maxRem ≤ 0 then true
        else
          match targetRemaining with
          | some rm => 0 < rm
          | none => false
      let freeMode : Bool := !lim.isEmpty && maxRem ≤ 0
      .ok {
        tenantId := targetId
        targetQuota := target.quota
        targetIsLimited := targetIsLimited
        remainingForTarget := targetRemaining
        maxRemaining := maxRem
        canOrderForTarget := canOrder
        isFreeMode := freeMode
      }

/-- The internal `quota_reason` values computed by the quota block of
`tap_transaction` (api_routes.py lines 670–703). -/
inductive QuotaReason where
  | unlimited
  | ok
  | quota_exceeded
  | free_mode
deriving DecidableEq, Repr

/-- The free-mode scan loop of `tap_transaction` (api_routes.py lines
691–698): `any_tenant_with_remaining` is true when some row passing the
`quota > 0` SQL filter still has `quota - order_count > 0`. -/
def anyTenantWithRemaining (rows : List TenantRow) : Bool :=
  (tenantsWithQuota rows).any (fun r => 0 < remainingOf r)

/-- The `quota_reason` computation of `tap_transaction` (api_routes.py lines
668–703) for a target row within a snapshot: `unlimited` when `quota == 0`,
`ok` when `remaining_slots > 0`, otherwise `quota_exceeded` or `free_mode`
according to the scan. -/
def tapQuotaReasonRows (rows : List TenantRow) (target : TenantRow) : QuotaReason :=
  let quotaValue := quotaOrZero target.quota
  let remainingSlots := quotaValue - (target.orderCount : Int)
  if quotaValue = 0 then .unlimited
  else if 0 < remainingSlots then .ok
  else if anyTenantWithRemaining rows then .quota_exceeded
  else .free_mode

/-- The rejection gate of `tap_transaction` (api_routes.py line 707):
`quota_value > 0 and remaining_slots <= 0 and not allow_due_to_free_mode`,
where `allow_due_to_free_mode` is set exactly in the `free_mode` branch. -/
def tapQuotaGateRows (rows : List TenantRow) (target : TenantRow) : Bool :=
  let quotaValue := quotaOrZero target.quota
  let remainingSlots := quotaValue - (target.orderCount : Int)
  let allowDueToFreeMode : Bool := tapQuotaReasonRows rows target = .free_mode
  decide (0 < quotaValue) && decide (remainingSlots ≤ 0) && !allowDueToFreeMode

/-- A capacitated tenant in the sense of the specification's glossary:
`capacity_enforced = true` and `daily_capacity > 0`. -/
def capacitatedSpec (r : TenantRow) : Prop :=
  r.isLimited = true ∧ 0 < quotaOrZero r.quota

instance (r : TenantRow) : Decidable (capacitatedSpec r) := by
  unfold capacitatedSpec; infer_instance

/-- A committed row of the `transactions` table, with the columns written by
the `INSERT` statements of `tap_transaction` (api_routes.py lines 714–737)
and `create_preorder` (lines 1194–1217). -/
structure TxRow where
  card : String
  employeeId : String
  employeeName : String
  employeeGroup : String
  tenantId : Nat
  tenantName : String
  dateText : String
  day : String
deriving DecidableEq, Repr

/-- The committed `transactions` ledger. -/
abbrev Ledger := List TxRow

/-- A row of the `employees` table with the columns read by
`tap_transaction` (api_routes.py lines 606–618); `card_number` is nullable. -/
structure Employee where
  employeeId : String
  card : Option String
  name : String
  group : String
  isDisabled : Bool
  isBlocked : Bool
deriving DecidableEq, Repr

/-- A row of the `tenants` table with the columns read by `tap_transaction`
(api_routes.py lines 630–637). -/
structure Tenant where
  tid : Nat
  name : String
  quota : Option Int
  isLimited : Bool
deriving DecidableEq, Repr

/-- `_card_has_transaction_for_day` (api_routes.py lines 288–301): returns
`False` outright when `card_number` or `transaction_day` is falsy, otherwise
a point lookup `card_number = ? AND transaction_day = ?` against the
committed ledger. -/
def card_has_transaction_for_day (L : Ledger) (card day : String) : Bool :=
  if card = "" || day = "" then false
  else L.any (fun r => r.card == card && r.day == day)

/-- Membership of a `(card_number, transaction_day)` key in the ledger — the
key of the unique index `idx_transactions_card_day`
(sqlite_database.py lines 346–352). -/
def hasCardDay (L : Ledger) (card day : String) : Bool :=
  L.any (fun r => r.card == card && r.day == day)

/-- The duplicate guard as invoked by `create_preorder` (api_routes.py lines
992–995): the stored card number is first defaulted with
`employee["card_number"] or ""`. -/
def preorder_duplicate_guard (L : Ledger) (employeeCard : Option String)
    (day : String) : Bool :=
  card_has_transaction_for_day L (employeeCard.getD "") day

/-- The `SELECT COUNT(*) FROM transactions WHERE tenant_id = ? AND
transaction_day = ?` query of `tap_transaction` (api_routes.py lines
658–667). -/
def tenantOrdersToday (L : Ledger) (tid : Nat) (day : String) : Nat :=
  (L.filter (fun r => r.tenantId == tid && r.day == day)).length

/-- The joined snapshot built by the free-mode scan of `tap_transaction`
(api_routes.py lines 675–690): every tenant row paired with its committed
order count for the day (`COALESCE` of the grouped subquery). The `WHERE
t.quota > 0` filter is applied by `tenantsWithQuota` inside
`anyTenantWithRemaining`. -/
def scanSnapshot (tens : List Tenant) (L : Ledger) (day : String) : List TenantRow :=
  tens.map (fun t => ⟨t.tid, t.quota, t.isLimited, tenantOrdersToday L t.tid day⟩)

/-- The queue-number assignment of `create_preorder` (api_routes.py lines
1128–1136), as a function of the tenant's quota and `order_count_today`
(the count *including* the new order): `remaining_after = quota -
order_count_today`; with a positive quota the number is `remaining_after + 1`
when `remaining_after >= 0` and `remaining_after` otherwise; with quota `0`
(or `NULL`) it is `remaining_after` itself. -/
def preorder_queue_number (quotaValue : Int) (orderCountToday : Int) : Int :=
  let remainingAfter := quotaValue - orderCountToday
  if 0 < quotaValue then
    if 0 ≤ remainingAfter then remainingAfter + 1 else remainingAfter
  else remainingAfter

/-- The queue number assigned by `create_preorder` when the committed count
for the tenant before the new order is `countBefore`
(api_routes.py lines 1079–1090: `order_count_today = COUNT(*) + 1`). -/
def preorder_assign (quotaValue : Int) (countBefore : Nat) : Int :=
  preorder_queue_number quotaValue ((countBefore : Int) + 1)

/-- The fixed service time zone: `JAKARTA_TZ = ZoneInfo("Asia/Jakarta")`
with fallback `timezone(timedelta(hours=7))` (api_routes.py lines 34–37);
Asia/Jakarta is UTC+7 with no daylight saving, i.e. 420 minutes. -/
def jakartaOffsetMin : Int := 7 * 60

/-- The calendar day index of an instant (minutes since an epoch, UTC) in a
zone with the given offset: local midnight-to-midnight days, so floor
division of the local minute count by 1440. -/
def calendarDayOfInstant (utcMin offsetMin : Int) : Int :=
  Int.fdiv (utcMin + offsetMin) (24 * 60)

/-- `datetime.date.today()` as used by `evaluate_tenant_quota_for_today`
(quota_utils.py line 10): the calendar date of the current instant in the
*server's* operating-system time zone. -/
def quotaEvaluatorToday (nowUtcMin serverOffsetMin : Int) : Int :=
  calendarDayOfInstant nowUtcMin serverOffsetMin

/-- The day key derived by the admission path for the current instant:
`_normalize_timestamp_to_local` with an absent timestamp takes
`datetime.now(tz=JAKARTA_TZ).date()` (api_routes.py lines 92–94 and 115),
i.e. the Asia/Jakarta calendar date. -/
def admissionDayKey (nowUtcMin : Int) : Int :=
  calendarDayOfInstant nowUtcMin jakartaOffsetMin

/-- `status` of a `TapTransactionResponse` (api_routes.py line 377). -/
inductive TapStatus where
  | accepted
  | rejected
deriving DecidableEq, Repr

/-- `TapReasonLiteral` (api_routes.py lines 378–387) — the exact member set
of the response `reason` field. It has no `free_mode` and no `unlimited`
member. -/
inductive TapReason where
  | duplicate
  | quota_exceeded
  | unknown_card
  | unknown_tenant
  | db_busy
  | ok
  | duplicate_daily
  | canteen_closed
deriving DecidableEq, Repr

/-- Outcome of one `/tap` admission attempt: the response `status` and
`reason`, the HTTP status code returned, the internal `quota_reason`
value that the endpoint logs (api_routes.py lines 704–706), and the
committed ledger after the attempt. -/
structure TapResult where
  status : TapStatus
  reason : TapReason
  httpStatus : Nat
  quotaLog : Option QuotaReason
  ledger : Ledger
deriving DecidableEq, Repr

/-- The employee lookup `WHERE card_number = ?` with `fetchone()`
(api_routes.py lines 606–619); a SQL `NULL` card never equals the query
string. -/
def findEmployee (emps : List Employee) (card : String) : Option Employee :=
  emps.find? (fun e => e.card == some card)

/-- The row inserted into `transactions` by `tap_transaction`
(api_routes.py lines 714–737); the card value is `employee["card_number"]`,
which the lookup guarantees equals the request card. -/
def mkTxRow (e : Employee) (t : Tenant) (card dateText day : String) : TxRow :=
  ⟨card, e.employeeId, e.name, e.group, t.tid, t.name, dateText, day⟩

/-- The `/tap` admission attempt `tap_transaction` (api_routes.py lines
550–832) after timestamp normalization, with the point-check race made
explicit: `Lcheck` is the ledger snapshot seen by the in-transaction
duplicate guard, count query and free-mode scan, and `Linsert` is the
committed ledger the `INSERT` runs against (its unique index
`idx_transactions_card_day` is the backstop; a violation is caught as
`sqlite3.IntegrityError` and downgraded to `duplicate_daily`, lines
753–759). `busy` models `sqlite3.OperationalError: database is locked` at
`BEGIN IMMEDIATE`, answered as `db_busy` with HTTP 409 (lines 764–772).
Every rejection rolls back, leaving the committed ledger `Linsert`
unchanged; acceptance appends exactly one row. -/
def tapStepRaced (emps : List Employee) (tens : List Tenant)
    (Lcheck Linsert : Ledger) (card : String) (tenantId : Nat)
    (dateText day : String) (busy : Bool) : TapResult :=
  match findEmployee emps card with
  | none => ⟨.rejected, .unknown_card, 200, none, Linsert⟩
  | some e =>
    if e.isDisabled || e.isBlocked then
      ⟨.rejected, .unknown_card, 200, none, Linsert⟩
    else
      match tens.find? (fun t => t.tid == tenantId) with
      | none => ⟨.rejected, .unknown_tenant, 200, none, Linsert⟩
      | some t =>
        if busy then ⟨.rejected, .db_busy, 409, none, Linsert⟩
        else if card_has_transaction_for_day Lcheck card day then
          ⟨.rejected, .duplicate_daily, 200, none, Linsert⟩
        else if tapQuotaGateRows (scanSnapshot tens Lcheck day)
            ⟨t.tid, t.quota, t.isLimited,
              tenantOrdersToday Lcheck t.tid day⟩ then
          ⟨.rejected, .quota_exceeded, 200,
            some (tapQuotaReasonRows (scanSnapshot tens Lcheck day)
              ⟨t.tid, t.quota, t.isLimited,
                tenantOrdersToday Lcheck t.tid day⟩), Linsert⟩
        else if hasCardDay Linsert card day then
          ⟨.rejected, .duplicate_daily, 200,
            some (tapQuotaReasonRows (scanSnapshot tens Lcheck day)
              ⟨t.tid, t.quota, t.isLimited,
                tenantOrdersToday Lcheck t.tid day⟩), Linsert⟩
        else
          ⟨.accepted, .ok, 200,
            some (tapQuotaReasonRows (scanSnapshot tens Lcheck day)
              ⟨t.tid, t.quota, t.isLimited,
                tenantOrdersToday Lcheck t.tid day⟩),
            Linsert ++ [mkTxRow e t card dateText day]⟩

/-- A serialized `/tap` attempt: `BEGIN IMMEDIATE` holds the exclusive
write scope for the whole check-then-insert unit, so the guard, the scan
and the insert all see the same committed ledger. -/
def tapStep (emps : List Employee) (tens : List Tenant) (L : Ledger)
    (card : String) (tenantId : Nat) (dateText day : String) (busy : Bool) :
    TapResult :=
  tapStepRaced emps tens L L card tenantId dateText day busy

/-- One inbound `/tap` request (after request-model validation), plus the
contention flag of its `BEGIN IMMEDIATE`. -/
structure TapAttempt where
  card : String
  tenantId : Nat
  dateText : String
  day : String
  busy : Bool
deriving DecidableEq, Repr

/-- A sequence of admission attempts executed serially against the shared
ledger — the write scope admits one attempt at a time. -/
def runTaps (emps : List Employee) (tens : List Tenant) :
    List TapAttempt → Ledger → List TapResult × Ledger
  | [], L => ([], L)
  | a :: rest, L =>
    let r := tapStep emps tens L a.card a.tenantId a.dateText a.day a.busy
    let p := runTaps emps tens rest r.ledger
    (r :: p.1, p.2)

/-- The invariant enforced by the unique index `idx_transactions_card_day`:
no two ledger rows share the same `(card_number, transaction_day)` key. -/
def uniqueLedger (L : Ledger) : Prop :=
  L.Pairwise (fun a b => ¬(a.card = b.card ∧ a.day = b.day))

instance (L : Ledger) : Decidable (uniqueLedger L) := by
  unfold uniqueLedger; infer_instance

/-- Result of `datetime.datetime.fromisoformat`, abstracted as an oracle:
failure (`ValueError`), a naive datetime (`tzinfo is None`) given by its
local minute count, or an aware datetime given by local minutes and UTC
offset. -/
inductive ParseResult where
  | fail
  | naive (localMin : Int)
  | aware (localMin offsetMin : Int)
deriving DecidableEq, Repr

/-- Python `str.strip()` (whitespace from both ends), written by structural
recursion over the character list so that it evaluates by kernel
reduction. -/
def pyStrip (s : String) : String :=
  String.mk
    (((s.data.dropWhile Char.isWhitespace).reverse.dropWhile
      Char.isWhitespace).reverse)

/-- The `Z` suffix rewriting of `_normalize_timestamp_to_local`
(api_routes.py lines 100–101). -/
def zNormalize (s : String) : String :=
  if s.endsWith "Z" then s.dropRight 1 ++ "+00:00" else s

/-- The output of `_normalize_timestamp_to_local`: the instant, the
Asia/Jakarta local minute count (from which the `YYYY-MM-DD HH:MM:SS`
text is printed) and the Asia/Jakarta day key (the `YYYY-MM-DD`
isoformat). -/
structure NormalizedTs where
  instantUtcMin : Int
  localMin : Int
  dayKey : Int
deriving DecidableEq, Repr

/-- The normalization of an instant into Asia/Jakarta local time. -/
def ofInstant (utcMin : Int) : NormalizedTs :=
  ⟨utcMin, utcMin + jakartaOffsetMin,
    Int.fdiv (utcMin + jakartaOffsetMin) (24 * 60)⟩

/-- `_normalize_timestamp_to_local` (api_routes.py lines 85–116) over the
parse oracle: an absent or (after `strip`) empty timestamp means "now"; a
parse failure raises HTTP 400 (`tap_ts harus berupa timestamp ISO8601 yang
valid`); a naive parse is given `tzinfo=JAKARTA_TZ` unchanged (so its local
fields are kept, the instant is shifted back by the offset); an aware parse
is converted with `astimezone(JAKARTA_TZ)`. -/
def normalize_timestamp_to_local (parse : String → ParseResult)
    (nowUtcMin : Int) (rawTs : Option String) : Except Nat NormalizedTs :=
  match rawTs with
  | none => .ok (ofInstant nowUtcMin)
  | some s =>
    let normalized := pyStrip s
    if normalized = "" then .ok (ofInstant nowUtcMin)
    else
      match parse (zNormalize normalized) with
      | .fail => .error 400
      | .naive l =>
        .ok ⟨l - jakartaOffsetMin, l, Int.fdiv l (24 * 60)⟩
      | .aware l off => .ok (ofInstant (l - off))

/-- Observable outcome of a full `/tap` request from its entry point: an
HTTP error raised before the handler's normal flow (if any), whether a
database connection was opened (`get_db_connection` at api_routes.py line
595 — strictly after timestamp normalization at line 592), the admission
result, and the committed ledger afterwards. -/
structure TapEntryResult where
  httpError : Option Nat
  dbOpened : Bool
  result : Option TapResult
  ledger : Ledger
deriving DecidableEq, Repr

/-- `tap_transaction` from its entry (api_routes.py lines 590–832): the
timestamp is normalized first; a failure returns HTTP 400 with no database
connection, no lock and no write; otherwise the serialized admission step
runs with the derived date text and day key. -/
def tap_transaction_entry (parse : String → ParseResult) (nowUtcMin : Int)
    (emps : List Employee) (tens : List Tenant) (L : Ledger)
    (card : String) (tenantId : Nat) (tapTs : Option String) (busy : Bool) :
    TapEntryResult :=
  match normalize_timestamp_to_local parse nowUtcMin tapTs with
  | .error code => ⟨some code, false, none, L⟩
  | .ok nts =>
    let r := tapStep emps tens L card tenantId
      (toString nts.localMin) (toString nts.dayKey) busy
    ⟨none, true, some r, r.ledger⟩

/-- `get_db_connection` (sqlite_database.py lines 16–36): the connection
`timeout` in seconds and the `busy_timeout` pragma in milliseconds, per
mode — the `/tap` endpoint connects with `mode="tap"` and gets the bounded
1-second wait. The source lowercases `(mode or "default")` first; the call
sites only pass lowercase mode strings, which is what is modelled. -/
def get_db_connection_timeouts (mode : String) : Nat × Nat :=
  if mode = "tap" then (1, 1000) else (5, 5000)

/-- Claim C2 as stated, for one snapshot and target: the quota verdict of the
tap path and the fields of `evaluate_tenant_quota_for_today`, with
"capacitated tenant" read as the specification's glossary demands
(`capacity_enforced = true` and `daily_capacity > 0`) and "uncapped" as
"daily capacity 0 (or null)". -/
def C2Claim (rows : List TenantRow) (target : TenantRow) : Prop :=
  (quotaOrZero target.quota = 0 →
    tapQuotaGateRows rows target = false ∧
    tapQuotaReasonRows rows target = .unlimited) ∧
  (quotaOrZero target.quota ≠ 0 →
    0 < quotaOrZero target.quota - (target.orderCount : Int) →
    tapQuotaGateRows rows target = false ∧
    tapQuotaReasonRows rows target = .ok) ∧
  (quotaOrZero target.quota ≠ 0 →
    quotaOrZero target.quota - (target.orderCount : Int) ≤ 0 →
    ((tapQuotaGateRows rows target = true) ↔
      ∃ r ∈ rows, capacitatedSpec r ∧ 0 < remainingOf r) ∧
    ((¬∃ r ∈ rows, capacitatedSpec r ∧ 0 < remainingOf r) →
      tapQuotaGateRows rows target = false ∧
      tapQuotaReasonRows rows target = .free_mode)) ∧
  (∀ st, evaluate_tenant_quota_for_today rows target.tid = .ok st →
    (st.canOrderForTarget = true ↔
      (quotaOrZero target.quota = 0 ∨
        (∃ rm, st.remainingForTarget = some rm ∧ 0 < rm) ∨
        st.maxRemaining ≤ 0)) ∧
    (st.isFreeMode = true ↔
      ((∃ r ∈ rows, capacitatedSpec r) ∧ st.maxRemaining ≤ 0)))

/-- Claim C3 as stated: an attempt against a positive-capacity tenant with no
remaining slot, while no scanned tenant has remaining capacity, is accepted
and its response reason field is `free_mode` — in particular not `ok`. -/
def C3Claim : Prop :=
  ∀ (emps : List Employee) (tens : List Tenant) (L : Ledger)
    (card : String) (tid : Nat) (dateText day : String)
    (e : Employee) (t : Tenant),
    findEmployee emps card = some e →
    e.isDisabled = false → e.isBlocked = false →
    tens.find? (fun x => x.tid == tid) = some t →
    hasCardDay L card day = false →
    0 < quotaOrZero t.quota →
    quotaOrZero t.quota - (tenantOrdersToday L t.tid day : Int) ≤ 0 →
    anyTenantWithRemaining (scanSnapshot tens L day) = false →
    (tapStep emps tens L card tid dateText day false).status = .accepted ∧
    (tapStep emps tens L card tid dateText day false).reason ≠ .ok

/-- Claim C4 as stated: the scanned set is exactly the tenants with
`capacity_enforced` true *and* positive quota. -/
def C4Claim : Prop :=
  ∀ rows : List TenantRow,
    limitedRows rows = rows.filter (fun r => decide (capacitatedSpec r)) ∧
    tenantsWithQuota rows = rows.filter (fun r => decide (capacitatedSpec r))

/-- Claim C7 as stated: any present, non-empty, unparseable `tap_ts` fails
with HTTP 400 before a database connection is opened, leaving the ledger
untouched. -/
def C7Claim : Prop :=
  ∀ (parse : String → ParseResult) (nowUtcMin : Int)
    (emps : List Employee) (tens : List Tenant) (L : Ledger)
    (card : String) (tid : Nat) (s : String) (busy : Bool),
    s ≠ "" → parse s = .fail →
    tap_transaction_entry parse nowUtcMin emps tens L card tid (some s) busy =
      ⟨some 400, false, none, L⟩

/-- Claim C8 as stated: for an admitted order with capacity `Q` and
post-insert occupancy `N`, the queue number is `Q - N` when `Q > 0` and `N`
when `Q = 0`. -/
def C8Claim : Prop :=
  ∀ (quotaValue : Int) (countBefore : Nat),
    (0 < quotaValue →
      preorder_assign quotaValue countBefore =
        quotaValue - ((countBefore : Int) + 1)) ∧
    (quotaValue = 0 →
      preorder_assign quotaValue countBefore = (countBefore : Int) + 1)

/-! ## Helper lemmas -/

/-- The SQL filter `quota IS NOT NULL AND quota > 0` of the tap/preorder
scans selects the same rows as the Python filter `(quota or 0) > 0` of
`quota_utils`. -/
theorem tenantsWithQuota_eq_limitedRows (rows : List TenantRow) :
    tenantsWithQuota rows = limitedRows rows := by
  unfold tenantsWithQuota limitedRows
  refine List.filter_congr ?_
  intro r _
  cases h : r.quota <;> simp [quotaOrZero, h]

theorem mem_limitedRows {rows : List TenantRow} {r : TenantRow} :
    r ∈ limitedRows rows ↔ r ∈ rows ∧ 0 < quotaOrZero r.quota := by
  simp [limitedRows, List.mem_filter]

theorem limitedRows_isEmpty_false_iff {rows : List TenantRow} :
    (limitedRows rows).isEmpty = false ↔
      ∃ r ∈ rows, 0 < quotaOrZero r.quota := by
  constructor
  · intro h
    have hne : limitedRows rows ≠ [] := by
      intro hn
      rw [hn] at h
      simp at h
    obtain ⟨r, hr⟩ := List.exists_mem_of_ne_nil _ hne
    exact ⟨r, (mem_limitedRows.mp hr).1, (mem_limitedRows.mp hr).2⟩
  · rintro ⟨r, hr, hq⟩
    have hmem := mem_limitedRows.mpr ⟨hr, hq⟩
    cases hl : limitedRows rows with
    | nil => rw [hl] at hmem; simp at hmem
    | cons a l => rfl

theorem anyTenantWithRemaining_iff {rows : List TenantRow} :
    anyTenantWithRemaining rows = true ↔
      ∃ r ∈ rows, 0 < quotaOrZero r.quota ∧ 0 < remainingOf r := by
  unfold anyTenantWithRemaining
  rw [tenantsWithQuota_eq_limitedRows]
  simp only [List.any_eq_true, decide_eq_true_eq]
  constructor
  · rintro ⟨r, hr, hrem⟩
    exact ⟨r, (mem_limitedRows.mp hr).1, (mem_limitedRows.mp hr).2, hrem⟩
  · rintro ⟨r, hr, hq, hrem⟩
    exact ⟨r, mem_limitedRows.mpr ⟨hr, hq⟩, hrem⟩

/-! ## C4 — the scanned tenant set ignores `capacity_enforced` -/

/-- C4 counterexample: the claim that both scan sets are exactly the
tenants with `capacity_enforced` true *and* positive quota is false — a
tenant with `is_limited = false` and `quota = 3` is in both scan sets. -/
theorem C4_claim_false : ¬C4Claim := by
  intro h
  have h1 := (h [⟨1, some 3, false, 0⟩]).1
  exact absurd h1 (by decide)

/-- C4 (amended): the occupancy/free-mode scan set — both the
`quota_utils` filter and the tap/preorder SQL filter — is exactly the
tenants with positive `quota`, with `capacity_enforced` (`is_limited`)
playing no role: a row with `is_limited = false` but positive quota is
still included. -/
theorem C4_amended_scan_set (rows : List TenantRow) (r : TenantRow) :
    (r ∈ limitedRows rows ↔ r ∈ rows ∧ 0 < quotaOrZero r.quota) ∧
    (r ∈ tenantsWithQuota rows ↔ r ∈ limitedRows rows) ∧
    (r ∈ rows → r.isLimited = false → 0 < quotaOrZero r.quota →
      r ∈ limitedRows rows) := by
  refine ⟨mem_limitedRows, by rw [tenantsWithQuota_eq_limitedRows], ?_⟩
  intro h1 _ h3
  exact mem_limitedRows.mpr ⟨h1, h3⟩

/-- Witness for `C4_amended_scan_set` at a concrete non-enforced tenant. -/
theorem C4_amended_scan_set_witness :
    (⟨1, some 3, false, 0⟩ : TenantRow) ∈ limitedRows [⟨1, some 3, false, 0⟩] :=
  (C4_amended_scan_set [⟨1, some 3, false, 0⟩] ⟨1, some 3, false, 0⟩).2.2
    (by decide) rfl (by decide)

/-! ## C8 — queue-number assignment -/

/-- C8 counterexample: with capacity 2 and occupancy 0 the first admitted
order gets queue number 2, not `Q - N = 1` as the claim's formula states
(the claim's own concrete example contradicts its formula). -/
theorem C8_claim_false : ¬C8Claim := by
  intro h
  have h1 := (h 2 0).1 (by decide)
  exact absurd h1 (by decide)

/-- C8 (amended): with `N = countBefore + 1` the occupancy including the
new order, a positive capacity `Q` yields queue number `Q - N + 1` while
`N ≤ Q`, and `Q - N` (negative) once `N > Q`; capacity `0` (uncapped)
yields `-N`, not `N`. In particular capacity 2, occupancy 0 gives 2 then
1, as the claim's concrete scenario says. -/
theorem C8_amended_queue_number (quotaValue : Int) (countBefore : Nat) :
    (0 < quotaValue →
      (((countBefore : Int) + 1 ≤ quotaValue →
        preorder_assign quotaValue countBefore =
          quotaValue - ((countBefore : Int) + 1) + 1) ∧
      (quotaValue < (countBefore : Int) + 1 →
        preorder_assign quotaValue countBefore =
          quotaValue - ((countBefore : Int) + 1)))) ∧
    (quotaValue = 0 →
      preorder_assign quotaValue countBefore = -((countBefore : Int) + 1)) ∧
    preorder_assign 2 0 = 2 ∧ preorder_assign 2 1 = 1 := by
  refine ⟨?_, ?_, by decide, by decide⟩
  · intro hQ
    constructor <;> intro h <;>
      simp only [preorder_assign, preorder_queue_number] <;>
      split_ifs <;> omega
  · intro h
    subst h
    simp only [preorder_assign, preorder_queue_number]
    split_ifs <;> omega

/-- Witness for `C8_amended_queue_number`: capacity 3, first order. -/
theorem C8_amended_queue_number_witness :
    preorder_assign 3 0 = 3 - (((0 : Nat) : Int) + 1) + 1 :=
  ((C8_amended_queue_number 3 0).1 (by decide)).1 (by decide)

/-! ## C9 — day-key derivation time zones -/

/-- C9: the quota evaluator's "today" is the server's OS-local calendar
date (`datetime.date.today()`), not the Asia/Jakarta date the admission
path derives. At the instant 18:00 UTC (minute 1080 of day 0) on a server
running in UTC (offset 0), the evaluator aggregates day 0 while the
admission path's Asia/Jakarta day key is already day 1; the two agree only
when the server's offset is UTC+7. -/
theorem C9_day_key_divergence :
    quotaEvaluatorToday 1080 0 = 0 ∧
    admissionDayKey 1080 = 1 ∧
    quotaEvaluatorToday 1080 0 ≠ admissionDayKey 1080 ∧
    quotaEvaluatorToday 1080 jakartaOffsetMin = admissionDayKey 1080 := by
  decide

/-! ## C10 — blank card numbers bypass the duplicate guard -/

/-- C10: `_card_has_transaction_for_day` returns `False` whenever the card
number (or the day key) is the empty string, regardless of the ledger rows;
consequently `create_preorder`, which defaults a NULL stored card number to
`""`, is never stopped by the once-per-day duplicate guard for such an
employee. -/
theorem C10_blank_card_never_duplicate :
    (∀ (L : Ledger) (card day : String),
      card = "" ∨ day = "" → card_has_transaction_for_day L card day = false) ∧
    (∀ (L : Ledger) (day : String) (ec : Option String),
      ec = none ∨ ec = some "" → preorder_duplicate_guard L ec day = false) := by
  constructor
  · rintro L card day (rfl | rfl) <;> simp [card_has_transaction_for_day]
  · rintro L day ec (rfl | rfl) <;>
      simp [preorder_duplicate_guard, card_has_transaction_for_day]

/-- Witness for `C10_blank_card_never_duplicate`: a NULL-card employee is
not flagged even against a ledger that already holds a blank-card row for
the same day. -/
theorem C10_blank_card_never_duplicate_witness :
    preorder_duplicate_guard
      [⟨"", "E1", "N", "G", 1, "T", "2026-01-02 08:00:00", "2026-01-02"⟩]
      none "2026-01-02" = false :=
  C10_blank_card_never_duplicate.2 _ _ _ (Or.inl rfl)

/-! ## C6 — bounded lock wait surfaces as db_busy / HTTP 409 -/

/-- C6: when the store reports contention (`database is locked`) at
`BEGIN IMMEDIATE`, the attempt is answered as `rejected`/`db_busy` with
HTTP 409 and the ledger is untouched — the handler maps the condition to
that response directly instead of retrying; the tap connection's wait is
bounded (1 s connect timeout, 1000 ms busy timeout, against 5 s / 5000 ms
for every other mode). -/
theorem C6_lock_timeout_db_busy
    (emps : List Employee) (tens : List Tenant) (L : Ledger)
    (card : String) (tid : Nat) (dateText day : String)
    (e : Employee) (t : Tenant)
    (h1 : findEmployee emps card = some e)
    (h2 : e.isDisabled = false) (h3 : e.isBlocked = false)
    (h4 : tens.find? (fun x => x.tid == tid) = some t) :
    tapStep emps tens L card tid dateText day true =
      ⟨.rejected, .db_busy, 409, none, L⟩ ∧
    get_db_connection_timeouts "tap" = (1, 1000) ∧
    get_db_connection_timeouts "default" = (5, 5000) := by
  refine ⟨?_, by rfl, by rfl⟩
  simp [tapStep, tapStepRaced, h1, h2, h3, h4]

/-- Witness for `C6_lock_timeout_db_busy` at a concrete contended tap. -/
theorem C6_lock_timeout_db_busy_witness :
    tapStep [⟨"E1", some "c1", "N", "G", false, false⟩]
      [⟨1, "T", some 5, true⟩] [] "c1" 1 "2026-01-02 08:00:00" "2026-01-02"
      true = ⟨.rejected, .db_busy, 409, none, []⟩ ∧
    get_db_connection_timeouts "tap" = (1, 1000) ∧
    get_db_connection_timeouts "default" = (5, 5000) :=
  C6_lock_timeout_db_busy
    [⟨"E1", some "c1", "N", "G", false, false⟩] [⟨1, "T", some 5, true⟩]
    [] "c1" 1 "2026-01-02 08:00:00" "2026-01-02"
    ⟨"E1", some "c1", "N", "G", false, false⟩ ⟨1, "T", some 5, true⟩
    rfl rfl rfl rfl

/-! ## C5 — storage uniqueness violations downgraded to duplicate_daily -/

/-- C5: if the point-check's snapshot misses a duplicate but the committed
ledger the `INSERT` runs against already holds a row for the same
`(card, day)` key — i.e. the unique index raises `IntegrityError` — the
attempt is rolled back and answered as a normal `rejected`/`duplicate_daily`
response (HTTP 200), and the committed ledger is left exactly as it was. -/
theorem C5_insert_race_downgraded
    (emps : List Employee) (tens : List Tenant) (Lcheck Linsert : Ledger)
    (card : String) (tid : Nat) (dateText day : String)
    (e : Employee) (t : Tenant)
    (h1 : findEmployee emps card = some e)
    (h2 : e.isDisabled = false) (h3 : e.isBlocked = false)
    (h4 : tens.find? (fun x => x.tid == tid) = some t)
    (h5 : card_has_transaction_for_day Lcheck card day = false)
    (h6 : tapQuotaGateRows (scanSnapshot tens Lcheck day)
      ⟨t.tid, t.quota, t.isLimited, tenantOrdersToday Lcheck t.tid day⟩ = false)
    (h7 : hasCardDay Linsert card day = true) :
    tapStepRaced emps tens Lcheck Linsert card tid dateText day false =
      ⟨.rejected, .duplicate_daily, 200,
        some (tapQuotaReasonRows (scanSnapshot tens Lcheck day)
          ⟨t.tid, t.quota, t.isLimited, tenantOrdersToday Lcheck t.tid day⟩),
        Linsert⟩ := by
  simp [tapStepRaced, h1, h2, h3, h4, h5, h6, h7]

/-- Witness for `C5_insert_race_downgraded`: an empty check snapshot racing
a committed duplicate. -/
theorem C5_insert_race_downgraded_witness :
    tapStepRaced [⟨"E1", some "c1", "N", "G", false, false⟩]
      [⟨1, "T", none, true⟩] []
      [⟨"c1", "E1", "N", "G", 1, "T", "2026-01-02 08:00:00", "2026-01-02"⟩]
      "c1" 1 "2026-01-02 08:05:00" "2026-01-02" false =
      ⟨.rejected, .duplicate_daily, 200,
        some (tapQuotaReasonRows
          (scanSnapshot [⟨1, "T", none, true⟩] [] "2026-01-02")
          ⟨1, none, true, tenantOrdersToday [] 1 "2026-01-02"⟩),
        [⟨"c1", "E1", "N", "G", 1, "T", "2026-01-02 08:00:00",
          "2026-01-02"⟩]⟩ :=
  C5_insert_race_downgraded
    [⟨"E1", some "c1", "N", "G", false, false⟩] [⟨1, "T", none, true⟩]
    [] [⟨"c1", "E1", "N", "G", 1, "T", "2026-01-02 08:00:00", "2026-01-02"⟩]
    "c1" 1 "2026-01-02 08:05:00" "2026-01-02"
    ⟨"E1", some "c1", "N", "G", false, false⟩ ⟨1, "T", none, true⟩
    rfl rfl rfl rfl (by decide) (by decide) (by decide)

/-! ## C7 — timestamp validation -/

/-- C7 counterexample: a whitespace-only `tap_ts` (`" "`) is present,
non-empty and not ISO-8601-parseable, yet `_normalize_timestamp_to_local`
strips it to the empty string and substitutes "now" instead of failing:
the request proceeds, a database connection is opened, and no 400 is
raised — contradicting the claim as stated. -/
theorem C7_claim_false : ¬C7Claim := by
  intro h
  have h1 := h (fun _ => .fail) 0 [] [] [] "c" 1 " " false (by decide) rfl
  exact absurd h1 (by decide)

/-- C7 (amended): a `tap_ts` that is non-empty *after stripping
whitespace* and whose stripped text (after the `Z` → `+00:00` rewrite)
fails to parse is answered with HTTP 400 before any database connection is
opened, no lock taken and the ledger unchanged; a parseable timestamp that
carries no offset keeps its local fields and is interpreted in the fixed
Asia/Jakarta zone; a whitespace-only `tap_ts` is instead treated as absent
and defaults to "now", proceeding normally. -/
theorem C7_amended_invalid_timestamp :
    (∀ (parse : String → ParseResult) (nowUtcMin : Int)
      (emps : List Employee) (tens : List Tenant) (L : Ledger)
      (card : String) (tid : Nat) (s : String) (busy : Bool),
      pyStrip s ≠ "" → parse (zNormalize (pyStrip s)) = .fail →
      tap_transaction_entry parse nowUtcMin emps tens L card tid (some s)
        busy = ⟨some 400, false, none, L⟩) ∧
    (∀ (parse : String → ParseResult) (nowUtcMin : Int) (s : String)
      (l : Int),
      pyStrip s ≠ "" → parse (zNormalize (pyStrip s)) = .naive l →
      normalize_timestamp_to_local parse nowUtcMin (some s) =
        .ok ⟨l - jakartaOffsetMin, l, Int.fdiv l (24 * 60)⟩) ∧
    (∀ (parse : String → ParseResult) (nowUtcMin : Int)
      (emps : List Employee) (tens : List Tenant) (L : Ledger)
      (card : String) (tid : Nat) (s : String) (busy : Bool),
      pyStrip s = "" →
      (tap_transaction_entry parse nowUtcMin emps tens L card tid (some s)
        busy).httpError = none ∧
      (tap_transaction_entry parse nowUtcMin emps tens L card tid (some s)
        busy).dbOpened = true) := by
  refine ⟨?_, ?_, ?_⟩
  · intro parse nowUtcMin emps tens L card tid s busy hne hfail
    simp [tap_transaction_entry, normalize_timestamp_to_local, hne, hfail]
  · intro parse nowUtcMin s l hne hnaive
    simp [normalize_timestamp_to_local, hne, hnaive]
  · intro parse nowUtcMin emps tens L card tid s busy hempty
    simp [tap_transaction_entry, normalize_timestamp_to_local, hempty]

/-- Witness for `C7_amended_invalid_timestamp` at concrete inputs: a
failing parse of `"not-a-date"`, a naive parse, and a whitespace-only
timestamp. -/
theorem C7_amended_invalid_timestamp_witness :
    tap_transaction_entry (fun _ => .fail) 0 [] [] [] "c" 1
      (some "not-a-date") false = ⟨some 400, false, none, []⟩ ∧
    normalize_timestamp_to_local (fun _ => .naive 600) 0 (some "x") =
      .ok ⟨600 - jakartaOffsetMin, 600, Int.fdiv 600 (24 * 60)⟩ ∧
    (tap_transaction_entry (fun _ => .fail) 0 [] [] [] "c" 1 (some " ")
      false).httpError = none :=
  ⟨C7_amended_invalid_timestamp.1 (fun _ => .fail) 0 [] [] [] "c" 1
      "not-a-date" false (by decide) rfl,
    C7_amended_invalid_timestamp.2.1 (fun _ => .naive 600) 0 "x" 600
      (by decide) rfl,
    (C7_amended_invalid_timestamp.2.2 (fun _ => .fail) 0 [] [] [] "c" 1
      " " false (by decide)).1⟩

/-! ## C3 — free-mode admissions respond with reason ok -/

/-- C3 counterexample (the spec's Scenario C): two tenants with capacity 3,
both fully occupied; a new tap for tenant 1 is accepted, but the response
`reason` field is `ok` — `free_mode` is not even a member of the response
reason type `TapReasonLiteral`; it appears only in the internal quota log.
This contradicts the claim that the response reason is `free_mode`, not
`ok`. -/
theorem C3_claim_false : ¬C3Claim := by
  intro h
  have h1 := h [⟨"E7", some "c7", "N", "G", false, false⟩]
    [⟨1, "A", some 3, true⟩, ⟨2, "B", some 3, true⟩]
    [⟨"c1", "e1", "n", "g", 1, "A", "d", "D"⟩,
     ⟨"c2", "e2", "n", "g", 1, "A", "d", "D"⟩,
     ⟨"c3", "e3", "n", "g", 1, "A", "d", "D"⟩,
     ⟨"c4", "e4", "n", "g", 2, "B", "d", "D"⟩,
     ⟨"c5", "e5", "n", "g", 2, "B", "d", "D"⟩,
     ⟨"c6", "e6", "n", "g", 2, "B", "d", "D"⟩]
    "c7" 1 "d" "D" ⟨"E7", some "c7", "N", "G", false, false⟩
    ⟨1, "A", some 3, true⟩
    rfl rfl rfl rfl (by decide) (by decide) (by decide) (by decide)
  exact h1.2 (by decide)

/-- C3 (amended): a tap against a positive-capacity tenant with no
remaining slot, when no scanned tenant has remaining capacity, is indeed
accepted (free-mode fallback), its internal logged quota reason is
`free_mode`, but the response's `reason` field is `ok` — the response type
has no `free_mode` member. -/
theorem C3_amended_free_mode_accepted_as_ok
    (emps : List Employee) (tens : List Tenant) (L : Ledger)
    (card : String) (tid : Nat) (dateText day : String)
    (e : Employee) (t : Tenant)
    (h1 : findEmployee emps card = some e)
    (h2 : e.isDisabled = false) (h3 : e.isBlocked = false)
    (h4 : tens.find? (fun x => x.tid == tid) = some t)
    (h5 : hasCardDay L card day = false)
    (h6 : 0 < quotaOrZero t.quota)
    (h7 : quotaOrZero t.quota - (tenantOrdersToday L t.tid day : Int) ≤ 0)
    (h8 : anyTenantWithRemaining (scanSnapshot tens L day) = false) :
    (tapStep emps tens L card tid dateText day false).status = .accepted ∧
    (tapStep emps tens L card tid dateText day false).reason = .ok ∧
    (tapStep emps tens L card tid dateText day false).quotaLog =
      some .free_mode := by
  have hguard : card_has_transaction_for_day L card day = false := by
    unfold card_has_transaction_for_day
    split
    · rfl
    · simpa [hasCardDay] using h5
  have hreason : tapQuotaReasonRows (scanSnapshot tens L day)
      ⟨t.tid, t.quota, t.isLimited, tenantOrdersToday L t.tid day⟩ =
      .free_mode := by
    simp only [tapQuotaReasonRows]
    rw [if_neg (by omega : ¬(quotaOrZero t.quota = 0)),
      if_neg (by omega :
        ¬(0 < quotaOrZero t.quota - (tenantOrdersToday L t.tid day : Int))),
      if_neg (by simp [h8])]
  have hgate : tapQuotaGateRows (scanSnapshot tens L day)
      ⟨t.tid, t.quota, t.isLimited, tenantOrdersToday L t.tid day⟩ =
      false := by
    simp only [tapQuotaGateRows]
    simp [hreason]
  simp [tapStep, tapStepRaced, h1, h2, h3, h4, hguard, hgate, hreason, h5]

/-- Witness for `C3_amended_free_mode_accepted_as_ok` at the spec's
Scenario C. -/
theorem C3_amended_free_mode_accepted_as_ok_witness :
    (tapStep [⟨"E7", some "c7", "N", "G", false, false⟩]
      [⟨1, "A", some 3, true⟩, ⟨2, "B", some 3, true⟩]
      [⟨"c1", "e1", "n", "g", 1, "A", "d", "D"⟩,
       ⟨"c2", "e2", "n", "g", 1, "A", "d", "D"⟩,
       ⟨"c3", "e3", "n", "g", 1, "A", "d", "D"⟩,
       ⟨"c4", "e4", "n", "g", 2, "B", "d", "D"⟩,
       ⟨"c5", "e5", "n", "g", 2, "B", "d", "D"⟩,
       ⟨"c6", "e6", "n", "g", 2, "B", "d", "D"⟩]
      "c7" 1 "d" "D" false).status = .accepted ∧
    (tapStep [⟨"E7", some "c7", "N", "G", false, false⟩]
      [⟨1, "A", some 3, true⟩, ⟨2, "B", some 3, true⟩]
      [⟨"c1", "e1", "n", "g", 1, "A", "d", "D"⟩,
       ⟨"c2", "e2", "n", "g", 1, "A", "d", "D"⟩,
       ⟨"c3", "e3", "n", "g", 1, "A", "d", "D"⟩,
       ⟨"c4", "e4", "n", "g", 2, "B", "d", "D"⟩,
       ⟨"c5", "e5", "n", "g", 2, "B", "d", "D"⟩,
       ⟨"c6", "e6", "n", "g", 2, "B", "d", "D"⟩]
      "c7" 1 "d" "D" false).reason = .ok ∧
    (tapStep [⟨"E7", some "c7", "N", "G", false, false⟩]
      [⟨1, "A", some 3, true⟩, ⟨2, "B", some 3, true⟩]
      [⟨"c1", "e1", "n", "g", 1, "A", "d", "D"⟩,
       ⟨"c2", "e2", "n", "g", 1, "A", "d", "D"⟩,
       ⟨"c3", "e3", "n", "g", 1, "A", "d", "D"⟩,
       ⟨"c4", "e4", "n", "g", 2, "B", "d", "D"⟩,
       ⟨"c5", "e5", "n", "g", 2, "B", "d", "D"⟩,
       ⟨"c6", "e6", "n", "g", 2, "B", "d", "D"⟩]
      "c7" 1 "d" "D" false).quotaLog = some .free_mode :=
  C3_amended_free_mode_accepted_as_ok
    [⟨"E7", some "c7", "N", "G", false, false⟩]
    [⟨1, "A", some 3, true⟩, ⟨2, "B", some 3, true⟩]
    [⟨"c1", "e1", "n", "g", 1, "A", "d", "D"⟩,
     ⟨"c2", "e2", "n", "g", 1, "A", "d", "D"⟩,
     ⟨"c3", "e3", "n", "g", 1, "A", "d", "D"⟩,
     ⟨"c4", "e4", "n", "g", 2, "B", "d", "D"⟩,
     ⟨"c5", "e5", "n", "g", 2, "B", "d", "D"⟩,
     ⟨"c6", "e6", "n", "g", 2, "B", "d", "D"⟩]
    "c7" 1 "d" "D" ⟨"E7", some "c7", "N", "G", false, false⟩
    ⟨1, "A", some 3, true⟩
    rfl rfl rfl rfl (by decide) (by decide) (by decide) (by decide)

/-! ## C2 — the quota verdict -/

/-- C2 counterexample: with a target tenant of quota `-1` (enforced) and a
second tenant of quota `5` with `capacity_enforced = false`, no tenant is
capacitated in the glossary's sense, so the claim demands the free-mode
verdict — but the code's scan counts the non-enforced tenant (quota 5,
remaining 5 > 0) and produces `quota_exceeded`. -/
theorem C2_claim_false :
    ¬C2Claim [⟨1, some (-1), true, 0⟩, ⟨2, some 5, false, 0⟩]
      ⟨1, some (-1), true, 0⟩ := by
  intro h
  have h3 := h.2.2.1 (by decide) (by decide)
  have hno : ¬∃ r ∈ ([⟨1, some (-1), true, 0⟩, ⟨2, some 5, false, 0⟩] :
      List TenantRow), capacitatedSpec r ∧ 0 < remainingOf r := by decide
  have hfree := (h3.2 hno).2
  exact absurd hfree (by decide)

/-- C2 (amended): the quota verdict of the tap path and the fields of
`evaluate_tenant_quota_for_today`, with "capacitated" meaning *positive
quota regardless of `capacity_enforced`*, "uncapped" meaning quota `≤ 0`
or null, and actual rejection additionally requiring the target's quota to
be strictly positive: quota `0`/null admits as `unlimited`; remaining
slots admit as `ok`; an exhausted target is rejected `quota_exceeded`
exactly when its quota is positive and some positive-quota tenant still
has remaining capacity, and admitted as `free_mode` when no positive-quota
tenant has remaining capacity; `can_order_for_target` is true iff the
target is uncapped, or its remaining is positive, or `max_remaining_any ≤
0`; `is_free_mode` is true iff some tenant has positive quota and
`max_remaining_any ≤ 0`. -/
theorem C2_amended_quota_verdict (rows : List TenantRow) (target : TenantRow)
    (hfind : rows.find? (fun r => r.tid = target.tid) = some target) :
    (quotaOrZero target.quota = 0 →
      tapQuotaGateRows rows target = false ∧
      tapQuotaReasonRows rows target = .unlimited) ∧
    (quotaOrZero target.quota ≠ 0 →
      0 < quotaOrZero target.quota - (target.orderCount : Int) →
      tapQuotaGateRows rows target = false ∧
      tapQuotaReasonRows rows target = .ok) ∧
    (quotaOrZero target.quota ≠ 0 →
      quotaOrZero target.quota - (target.orderCount : Int) ≤ 0 →
      ((tapQuotaGateRows rows target = true) ↔
        (0 < quotaOrZero target.quota ∧
          ∃ r ∈ rows, 0 < quotaOrZero r.quota ∧ 0 < remainingOf r)) ∧
      ((¬∃ r ∈ rows, 0 < quotaOrZero r.quota ∧ 0 < remainingOf r) →
        tapQuotaGateRows rows target = false ∧
        tapQuotaReasonRows rows target = .free_mode)) ∧
    (∀ st, evaluate_tenant_quota_for_today rows target.tid = .ok st →
      (st.canOrderForTarget = true ↔
        (quotaOrZero target.quota ≤ 0 ∨
          (∃ rm, st.remainingForTarget = some rm ∧ 0 < rm) ∨
          st.maxRemaining ≤ 0)) ∧
      (st.isFreeMode = true ↔
        ((∃ r ∈ rows, 0 < quotaOrZero r.quota) ∧ st.maxRemaining ≤ 0))) := by
  have hmem : target ∈ rows := List.mem_of_find?_eq_some hfind
  refine ⟨?_, ?_, ?_, ?_⟩
  · intro hQ0
    constructor
    · simp [tapQuotaGateRows, hQ0]
    · simp [tapQuotaReasonRows, hQ0]
  · intro hQ hrem
    have hn : ¬(quotaOrZero target.quota - (target.orderCount : Int) ≤ 0) := by
      omega
    constructor
    · simp [tapQuotaGateRows, hn]
    · simp [tapQuotaReasonRows, hQ, hrem]
  · intro hQ hrem
    have hr' : ¬(0 < quotaOrZero target.quota - (target.orderCount : Int)) := by
      omega
    by_cases hany : anyTenantWithRemaining rows = true
    · have hreason : tapQuotaReasonRows rows target = .quota_exceeded := by
        simp [tapQuotaReasonRows, hQ, hr', hany]
      have hgate : tapQuotaGateRows rows target =
          decide (0 < quotaOrZero target.quota) := by
        simp [tapQuotaGateRows, hreason, hrem]
      constructor
      · rw [hgate]
        constructor
        · intro h
          exact ⟨of_decide_eq_true h, anyTenantWithRemaining_iff.mp hany⟩
        · rintro ⟨h1, -⟩
          exact decide_eq_true h1
      · intro hno
        exact absurd (anyTenantWithRemaining_iff.mp hany) hno
    · have hany' : anyTenantWithRemaining rows = false := by
        revert hany
        cases anyTenantWithRemaining rows <;> simp
      have hreason : tapQuotaReasonRows rows target = .free_mode := by
        simp [tapQuotaReasonRows, hQ, hr', hany']
      have hgate : tapQuotaGateRows rows target = false := by
        simp [tapQuotaGateRows, hreason]
      constructor
      · rw [hgate]
        constructor
        · intro h
          cases h
        · rintro ⟨-, hex⟩
          rw [← anyTenantWithRemaining_iff] at hex
          rw [hany'] at hex
          cases hex
      · intro _
        exact ⟨hgate, hreason⟩
  · intro st hst
    have hne : rows.isEmpty = false := by
      cases rows with
      | nil => simp at hmem
      | cons a l => rfl
    unfold evaluate_tenant_quota_for_today at hst
    rw [hne] at hst
    simp only [Bool.false_eq_true, if_false] at hst
    rw [hfind] at hst
    simp only [Except.ok.injEq] at hst
    subst hst
    constructor
    · by_cases hQ : 0 < quotaOrZero target.quota
      · have hlim : (limitedRows rows).isEmpty = false :=
          limitedRows_isEmpty_false_iff.mpr ⟨target, hmem, hQ⟩
        by_cases hmax : maxRemainingAny rows ≤ 0
        · simp [hlim, hQ, hmax]
          try omega
        · simp [hlim, hQ, hmax]
          try omega
      · have hQ' : quotaOrZero target.quota ≤ 0 := not_lt.mp hQ
        simp [hQ, hQ']
        try omega
    · by_cases hlim : (limitedRows rows).isEmpty = false
      · simp [hlim, limitedRows_isEmpty_false_iff.mp hlim]
      · have hlim' : (limitedRows rows).isEmpty = true := by
          revert hlim
          cases (limitedRows rows).isEmpty <;> simp
        simp only [hlim', Bool.not_true, Bool.false_and, Bool.false_eq_true,
          false_iff]
        rintro ⟨hex, -⟩
        rw [← limitedRows_isEmpty_false_iff] at hex
        rw [hlim'] at hex
        cases hex

/-- Witness for `C2_amended_quota_verdict`: target quota 2 exhausted while
another capacitated tenant still has room — the gate rejects. -/
theorem C2_amended_quota_verdict_witness :
    tapQuotaGateRows [⟨1, some 2, true, 2⟩, ⟨2, some 3, true, 1⟩]
      ⟨1, some 2, true, 2⟩ = true :=
  ((C2_amended_quota_verdict [⟨1, some 2, true, 2⟩, ⟨2, some 3, true, 1⟩]
      ⟨1, some 2, true, 2⟩ rfl).2.2.1 (by decide) (by decide)).1.mpr
    ⟨by decide, by decide⟩

/-! ## C1 — per-day uniqueness of admissions -/

/-- A serialized attempt either rejects and leaves the committed ledger
unchanged, or accepts, in which case no committed row held its
`(card, day)` key and exactly one row with that key is appended. -/
theorem tapStep_cases (emps : List Employee) (tens : List Tenant)
    (L : Ledger) (card : String) (tid : Nat) (dateText day : String)
    (busy : Bool) :
    ((tapStep emps tens L card tid dateText day busy).status = .rejected ∧
      (tapStep emps tens L card tid dateText day busy).ledger = L) ∨
    ((tapStep emps tens L card tid dateText day busy).status = .accepted ∧
      hasCardDay L card day = false ∧
      ∃ e t, (tapStep emps tens L card tid dateText day busy).ledger =
        L ++ [mkTxRow e t card dateText day]) := by
  unfold tapStep tapStepRaced
  cases hfe : findEmployee emps card with
  | none => exact Or.inl ⟨rfl, rfl⟩
  | some e =>
    cases hde : (e.isDisabled || e.isBlocked) with
    | true => refine Or.inl ⟨?_, ?_⟩ <;> simp [hde]
    | false =>
      cases hft : List.find? (fun t => t.tid == tid) tens with
      | none => refine Or.inl ⟨?_, ?_⟩ <;> simp [hde]
      | some t =>
        cases busy with
        | true => refine Or.inl ⟨?_, ?_⟩ <;> simp [hde]
        | false =>
          cases hguard : card_has_transaction_for_day L card day with
          | true => refine Or.inl ⟨?_, ?_⟩ <;> simp [hde, hguard]
          | false =>
            cases hgate : tapQuotaGateRows (scanSnapshot tens L day)
                ⟨t.tid, t.quota, t.isLimited,
                  tenantOrdersToday L t.tid day⟩ with
            | true => refine Or.inl ⟨?_, ?_⟩ <;> simp [hde, hguard, hgate]
            | false =>
              cases hback : hasCardDay L card day with
              | true =>
                refine Or.inl ⟨?_, ?_⟩ <;> simp [hde, hguard, hgate, hback]
              | false =>
                refine Or.inr ⟨?_, rfl, e, t, ?_⟩ <;>
                  simp [hde, hguard, hgate, hback]

/-- Once the committed ledger holds a row for `(C, D)`, every further good
attempt for the same card and day is rejected `duplicate_daily` and
leaves the ledger unchanged. -/
theorem runTaps_all_dup (emps : List Employee) (tens : List Tenant)
    (C D : String) (e : Employee)
    (hC : C ≠ "") (hD : D ≠ "")
    (he : findEmployee emps C = some e)
    (hdis : e.isDisabled = false) (hblk : e.isBlocked = false) :
    ∀ (attempts : List TapAttempt) (L : Ledger),
      (∀ a ∈ attempts, a.card = C ∧ a.day = D ∧ a.busy = false ∧
        (tens.find? (fun t => t.tid == a.tenantId)).isSome) →
      hasCardDay L C D = true →
      (runTaps emps tens attempts L).2 = L ∧
      ∀ r ∈ (runTaps emps tens attempts L).1,
        r.status = .rejected ∧ r.reason = .duplicate_daily := by
  intro attempts
  induction attempts with
  | nil =>
    intro L _ _
    exact ⟨rfl, fun r hr => absurd hr (List.not_mem_nil r)⟩
  | cons a rest ih =>
    intro L hgood hL
    obtain ⟨hcard, hday, hbusy, hten⟩ := hgood a (List.mem_cons_self a rest)
    obtain ⟨t, htt⟩ := Option.isSome_iff_exists.mp hten
    have hguard : card_has_transaction_for_day L C D = true := by
      unfold card_has_transaction_for_day
      rw [if_neg (by simp [hC, hD])]
      exact hL
    have hstep : tapStep emps tens L a.card a.tenantId a.dateText a.day
        a.busy = ⟨.rejected, .duplicate_daily, 200, none, L⟩ := by
      rw [hcard, hday, hbusy]
      simp [tapStep, tapStepRaced, he, hdis, hblk, htt, hguard]
    have ihL := ih L (fun b hb => hgood b (List.mem_cons_of_mem a hb)) hL
    constructor
    · simp only [runTaps, hstep]
      exact ihL.1
    · intro r hr
      simp only [runTaps, hstep] at hr
      rcases List.mem_cons.mp hr with rfl | hr'
      · exact ⟨rfl, rfl⟩
      · exact ihL.2 r hr'

/-- A list of results that are all rejections is vacuously pairwise
"accepted-then-duplicate-rejected". -/
theorem pairwise_of_all_rejected (l : List TapResult)
    (h : ∀ x ∈ l, x.status = .rejected) :
    l.Pairwise (fun x y => x.status = .accepted →
      y.status = .rejected ∧ y.reason = .duplicate_daily) := by
  induction l with
  | nil => exact .nil
  | cons a l ih =>
    refine .cons ?_ (ih fun x hx => h x (List.mem_cons_of_mem a hx))
    intro y _ hacc
    rw [h a (List.mem_cons_self a l)] at hacc
    exact TapStatus.noConfusion hacc

/-- Serial execution of good attempts for one `(C, D)` preserves the
ledger's uniqueness invariant and yields a result sequence in which every
result after an accepted one is rejected `duplicate_daily`. -/
theorem runTaps_unique_and_pairwise (emps : List Employee)
    (tens : List Tenant) (C D : String) (e : Employee)
    (hC : C ≠ "") (hD : D ≠ "")
    (he : findEmployee emps C = some e)
    (hdis : e.isDisabled = false) (hblk : e.isBlocked = false) :
    ∀ (attempts : List TapAttempt) (L : Ledger),
      (∀ a ∈ attempts, a.card = C ∧ a.day = D ∧ a.busy = false ∧
        (tens.find? (fun t => t.tid == a.tenantId)).isSome) →
      uniqueLedger L →
      uniqueLedger (runTaps emps tens attempts L).2 ∧
      (runTaps emps tens attempts L).1.Pairwise
        (fun x y => x.status = .accepted →
          y.status = .rejected ∧ y.reason = .duplicate_daily) := by
  intro attempts
  induction attempts with
  | nil =>
    intro L _ huniq
    exact ⟨huniq, .nil⟩
  | cons a rest ih =>
    intro L hgood huniq
    obtain ⟨hcard, hday, hbusy, hten⟩ := hgood a (List.mem_cons_self a rest)
    have hgoodr : ∀ b ∈ rest, b.card = C ∧ b.day = D ∧ b.busy = false ∧
        (tens.find? (fun t => t.tid == b.tenantId)).isSome :=
      fun b hb => hgood b (List.mem_cons_of_mem a hb)
    rcases tapStep_cases emps tens L a.card a.tenantId a.dateText a.day
        a.busy with ⟨hrej, hled⟩ | ⟨hacc, hmiss, e', t', hled⟩
    · have ihL := ih L hgoodr huniq
      constructor
      · simp only [runTaps]
        rw [hled]
        exact ihL.1
      · simp only [runTaps]
        rw [hled]
        refine List.Pairwise.cons ?_ ihL.2
        intro y _ hxacc
        rw [hrej] at hxacc
        exact TapStatus.noConfusion hxacc
    · have hnew : hasCardDay
          (tapStep emps tens L a.card a.tenantId a.dateText a.day a.busy).ledger
          C D = true := by
        rw [hled]
        simp [hasCardDay, List.any_append, mkTxRow, hcard, hday]
      have huniq' : uniqueLedger
          (tapStep emps tens L a.card a.tenantId a.dateText a.day a.busy).ledger := by
        rw [hled]
        unfold uniqueLedger at huniq ⊢
        rw [List.pairwise_append]
        refine ⟨huniq, by simp, ?_⟩
        intro x hx y hy
        simp only [List.mem_singleton] at hy
        subst hy
        rintro ⟨hc, hd⟩
        have hkey : hasCardDay L a.card a.day = true := by
          unfold hasCardDay
          rw [List.any_eq_true]
          refine ⟨x, hx, ?_⟩
          simp only [mkTxRow] at hc hd
          simp [hc, hd]
        rw [hkey] at hmiss
        exact Bool.noConfusion hmiss
      obtain ⟨hfix, hallrej⟩ := runTaps_all_dup emps tens C D e hC hD he
        hdis hblk rest
        (tapStep emps tens L a.card a.tenantId a.dateText a.day a.busy).ledger
        hgoodr hnew
      constructor
      · simp only [runTaps]
        rw [hfix]
        exact huniq'
      · simp only [runTaps]
        refine List.Pairwise.cons ?_ ?_
        · intro y hy _
          exact hallrej y hy
        · exact pairwise_of_all_rejected _ fun x hx => (hallrej x hx).1

/-- In such a pairwise result sequence, at most one result is accepted. -/
theorem accepted_count_le_one (l : List TapResult)
    (h : l.Pairwise (fun x y => x.status = .accepted →
      y.status = .rejected ∧ y.reason = .duplicate_daily)) :
    (l.filter (fun r => r.status == .accepted)).length ≤ 1 := by
  induction l with
  | nil => simp
  | cons a l ih =>
    rcases List.pairwise_cons.mp h with ⟨hhead, htail⟩
    by_cases hacc : a.status = .accepted
    · have hnil : l.filter (fun r => r.status == .accepted) = [] := by
        rw [List.filter_eq_nil_iff]
        intro x hx
        have hx' := (hhead x hx hacc).1
        simp [hx']
      simp [List.filter_cons, hacc, hnil]
    · simp only [List.filter_cons]
      rw [if_neg (by simp [hacc])]
      exact ih htail

/-- C1: for a fixed card `C ≠ ""` and day key `D ≠ ""`, running any number
of admission attempts for `(C, D)` serially (each under the exclusive
write scope, with the card resolving to an enabled employee and each
target tenant existing, none contended): the ledger's
`(card_number, transaction_day)` uniqueness invariant is preserved, every
result after an accepted one is `rejected`/`duplicate_daily`, and at most
one attempt is accepted. -/
theorem C1_daily_uniqueness (emps : List Employee) (tens : List Tenant)
    (L : Ledger) (attempts : List TapAttempt) (C D : String) (e : Employee)
    (hC : C ≠ "") (hD : D ≠ "")
    (he : findEmployee emps C = some e)
    (hdis : e.isDisabled = false) (hblk : e.isBlocked = false)
    (hgood : ∀ a ∈ attempts, a.card = C ∧ a.day = D ∧ a.busy = false ∧
      (tens.find? (fun t => t.tid == a.tenantId)).isSome)
    (huniq : uniqueLedger L) :
    uniqueLedger (runTaps emps tens attempts L).2 ∧
    (runTaps emps tens attempts L).1.Pairwise
      (fun x y => x.status = .accepted →
        y.status = .rejected ∧ y.reason = .duplicate_daily) ∧
    ((runTaps emps tens attempts L).1.filter
      (fun r => r.status == .accepted)).length ≤ 1 := by
  obtain ⟨h1, h2⟩ := runTaps_unique_and_pairwise emps tens C D e hC hD he
    hdis hblk attempts L hgood huniq
  exact ⟨h1, h2, accepted_count_le_one _ h2⟩

/-- Witness for `C1_daily_uniqueness`: two taps of the same card on the
same day against an uncapped tenant — the first is accepted, the second
rejected `duplicate_daily`. -/
theorem C1_daily_uniqueness_witness :
    uniqueLedger (runTaps [⟨"E1", some "c1", "N", "G", false, false⟩]
      [⟨1, "T", none, true⟩]
      [⟨"c1", 1, "d1", "2026-01-02", false⟩,
       ⟨"c1", 1, "d2", "2026-01-02", false⟩] []).2 ∧
    (runTaps [⟨"E1", some "c1", "N", "G", false, false⟩]
      [⟨1, "T", none, true⟩]
      [⟨"c1", 1, "d1", "2026-01-02", false⟩,
       ⟨"c1", 1, "d2", "2026-01-02", false⟩] []).1.Pairwise
      (fun x y => x.status = .accepted →
        y.status = .rejected ∧ y.reason = .duplicate_daily) ∧
    ((runTaps [⟨"E1", some "c1", "N", "G", false, false⟩]
      [⟨1, "T", none, true⟩]
      [⟨"c1", 1, "d1", "2026-01-02", false⟩,
       ⟨"c1", 1, "d2", "2026-01-02", false⟩] []).1.filter
      (fun r => r.status == .accepted)).length ≤ 1 :=
  C1_daily_uniqueness [⟨"E1", some "c1", "N", "G", false, false⟩]
    [⟨1, "T", none, true⟩]
    [] [⟨"c1", 1, "d1", "2026-01-02", false⟩,
        ⟨"c1", 1, "d2", "2026-01-02", false⟩]
    "c1" "2026-01-02" ⟨"E1", some "c1", "N", "G", false, false⟩
    (by decide) (by decide) rfl rfl rfl (by decide) (by decide)

end Canteen
